import Mathlib

/-!
Verification of the input-validation and command-construction security layer of
the `mcp_demisto_sdk` server (files `security.py` and `server.py`).

The Python code is shallowly embedded:

* Filesystem state is an explicit `FS` value: a partial map from absolute path
  component lists to nodes (directory, regular file, or symbolic link), plus a
  current working directory and a symlink-following budget mirroring the
  kernel's ELOOP limit.  `Path.resolve()` (non-strict), `Path.exists()` and
  `Path.is_symlink()` are modelled as pure functions over `FS`.
* Python's `re.match` against the anchored character-class patterns
  `^[...]+$` is modelled exactly, including the documented behaviour of `$`
  matching just before one trailing newline.
* `shutil.which` and the process environment are an explicit `Env` value;
  spawning the external binary is an oracle `List String → SpawnResult`.
* Fallible Python functions returning `None` on rejection become `Option`;
  exceptions that the source catches broadly are mapped to the same rejection
  value the `except` handler produces.
-/

namespace Mcp

/-! ## Character classes of the two compiled regular expressions -/

/-- Membership in the class of `SAFE_NAME_PATTERN = ^[a-zA-Z0-9_\-]+$`. -/
def nameChar (c : Char) : Bool :=
  (('a' ≤ c) && (c ≤ 'z')) || (('A' ≤ c) && (c ≤ 'Z')) ||
  (('0' ≤ c) && (c ≤ '9')) || (c = '_') || (c = '-')

/-- Membership in the class of `SAFE_PATH_PATTERN = ^[a-zA-Z0-9_\-./]+$`. -/
def pathChar (c : Char) : Bool :=
  nameChar c || (c = '.') || (c = '/')

/-- Python `re.match` of an anchored pattern `^[cls]+$` on a list of
characters.  Per the `re` documentation, `$` matches at the end of the string
or just before a single newline at the end of the string, so `body ++ "\n"`
matches whenever the non-empty `body` lies in the class. -/
def reMatchClassAux (cls : Char → Bool) (cs : List Char) : Bool :=
  let body := match cs.reverse with
    | '\n' :: r => r.reverse
    | _ => cs
  (!body.isEmpty) && body.all cls

/-- Python `truthiness of re.match(^[cls]+$, s)`. -/
def reMatchClass (cls : Char → Bool) (s : String) : Bool :=
  reMatchClassAux cls s.data

/-! ## Paths and the filesystem model -/

/-- A string path starts with `/` iff it is absolute (`PurePosixPath.is_absolute`). -/
def isAbsStr (s : String) : Bool :=
  match s.data with
  | '/' :: _ => true
  | _ => false

/-- Split a character list on `/` separators. -/
def splitSlash : List Char → List (List Char)
  | [] => [[]]
  | '/' :: rest => [] :: splitSlash rest
  | c :: rest =>
    match splitSlash rest with
    | [] => [[c]]
    | g :: gs => (c :: g) :: gs

/-- The component list of a POSIX path string, as `pathlib` normalises it:
empty components (from doubled or leading/trailing slashes) and single-dot
components are dropped, `..` components are kept. -/
def parseParts (s : String) : List String :=
  ((splitSlash s.data).map (fun cs => String.mk cs)).filter
    (fun c => c ≠ "" && c ≠ ".")

/-- `PurePath.name`: the final component, or `""` when there is none. -/
def pyName (s : String) : String :=
  (parseParts s).getLast?.getD ""

/-- Render an absolute component list back to a string (`str(Path)` on a
resolved path). -/
def toStringAbs (parts : List String) : String :=
  "/" ++ String.intercalate "/" parts

/-- A filesystem node: directory, regular file, or symbolic link whose target
is the raw link text (absolute or relative). -/
inductive Node where
  | dir : Node
  | file : Node
  | symlink (target : String) : Node
deriving DecidableEq

/-- Filesystem state: a partial map from absolute component lists to nodes,
the current working directory (an absolute component list), and a resolution
step budget whose exhaustion models the error path `Path.resolve()` takes on
symlink loops (the analogue of ELOOP); on a loop-free filesystem any
sufficiently large budget gives the true resolution. -/
structure FS where
  lookup : List String → Option Node
  cwd : List String
  fuel : Nat

/-- Core of `Path.resolve()` (non-strict): walk the components left to right
keeping a fully resolved prefix `acc`; `..` is applied to the resolved prefix,
an existing symbolic link component is replaced by its target text, and a
component that does not exist is kept verbatim (later `..` still collapse, as
in `posixpath.realpath` with `strict=False`).  `none` (budget exhausted, only
possible when symlink expansion recurses) models the error path the library
resolver takes on symlink loops. -/
def resolveAux (fs : FS) : Nat → List String → List String → Option (List String)
  | _, acc, [] => some acc
  | 0, _, _ :: _ => none
  | Nat.succ fuel, acc, c :: rest =>
    if c = "" || c = "." then resolveAux fs fuel acc rest
    else if c = ".." then resolveAux fs fuel acc.dropLast rest
    else
      match fs.lookup (acc ++ [c]) with
      | some (Node.symlink tgt) =>
        if isAbsStr tgt then resolveAux fs fuel [] (parseParts tgt ++ rest)
        else resolveAux fs fuel acc (parseParts tgt ++ rest)
      | _ => resolveAux fs fuel (acc ++ [c]) rest

/-- `Path.resolve()` of an absolute component list. -/
def pyResolve (fs : FS) (p : List String) : Option (List String) :=
  resolveAux fs fs.fuel [] p

/-- Absolute component list of a path string: absolute paths stand alone,
relative paths are interpreted against the current working directory. -/
def absComps (fs : FS) (s : String) : List String :=
  if isAbsStr s then parseParts s else fs.cwd ++ parseParts s

/-- `Path.exists()` on an absolute component list: `os.stat` follows the full
symlink chain and reports `False` on any failure (missing target, ELOOP). -/
def pyExists (fs : FS) (p : List String) : Bool :=
  match pyResolve fs p with
  | some r => (fs.lookup r).isSome
  | none => false

/-- `Path.is_symlink()` on an absolute component list: `os.lstat` resolves
every component but the last and then inspects the final entry without
following it; any `OSError` yields `False`. -/
def pyIsSymlink (fs : FS) (p : List String) : Bool :=
  match p.getLast? with
  | none => false
  | some last =>
    match pyResolve fs p.dropLast with
    | none => false
    | some d =>
      match fs.lookup (d ++ [last]) with
      | some (Node.symlink _) => true
      | _ => false

/-- `Path.is_file()` on an absolute component list: follows symlinks and asks
whether the final target is a regular file. -/
def pyIsFile (fs : FS) (p : List String) : Bool :=
  match pyResolve fs p with
  | some r => fs.lookup r = some Node.file
  | none => false

/-- Has any existing component of `p` (every non-empty prefix, leaf to root,
exactly the `while check_path != check_path.parent` walk in
`safe_resolve_path`) an entry that exists and is a symbolic link? -/
def walkHasSymlink (fs : FS) (p : List String) : Bool :=
  (List.range p.length).any (fun i =>
    pyExists fs (p.take (i + 1)) && pyIsSymlink fs (p.take (i + 1)))

/-- Does `hay` start with `needle`? -/
def startsWithList : List Char → List Char → Bool
  | _, [] => true
  | [], _ :: _ => false
  | h :: hs, n :: ns => h = n && startsWithList hs ns

/-- Does `hay` contain `needle` as a contiguous run? -/
def containsSub : List Char → List Char → Bool
  | [], needle => startsWithList [] needle
  | c :: t, needle => startsWithList (c :: t) needle || containsSub t needle

/-- Substring containment on strings (Python `sub in s`). -/
def strContains (s sub : String) : Bool :=
  containsSub s.data sub.data

/-- Join a path string onto an already canonical root: absolute paths stand
alone, relative ones are appended (`allowed_root / path`). -/
def joinedOf (root : List String) (path : String) : List String :=
  if isAbsStr path then parseParts path else root ++ parseParts path

/-! ## security.py -/

/-- `ALLOWED_SDK_BINARIES = frozenset(["demisto-sdk"])`. -/
def ALLOWED_SDK_BINARIES : List String := ["demisto-sdk"]

/-- `security.safe_resolve_path(path, allowed_root, follow_symlinks)`.
Rejections (`None` in the source) and caught exceptions (symlink-budget
`OSError` during `resolve()`, absorbed by the broad `except`) both become
`none`.  The allowed root is taken as a string path; the source's falsiness
test on it corresponds to the empty string. -/
def safe_resolve_path (fs : FS) (path : String) (allowed_root : String)
    (follow_symlinks : Bool) : Option (List String) :=
  if path = "" ∨ allowed_root = "" then none
  else
    match pyResolve fs (absComps fs allowed_root) with
    | none => none
    | some root =>
      let joined := joinedOf root path
      match pyResolve fs joined with
      | none => none
      | some resolved =>
        if !follow_symlinks && walkHasSymlink fs joined then none
        else if root.isPrefixOf resolved then some resolved
        else none

/-- The process environment: variable lookup plus `shutil.which`. -/
structure Env where
  vars : String → Option String
  which : String → Option String

/-- `security.validate_sdk_binary(binary_path)`.  The bare-name test is the
source's `Path(binary_path).name == binary_path`.  For a relative path with a
directory component the source calls `path.resolve()` unguarded; the
symlink-budget error it can raise is modelled by the `none` branch of the
resolution. -/
def validate_sdk_binary (env : Env) (fs : FS) (binary_path : String) :
    Option String :=
  if binary_path = "" then none
  else
    let nm := pyName binary_path
    if nm = binary_path then
      if ALLOWED_SDK_BINARIES.contains nm then env.which binary_path else none
    else if !ALLOWED_SDK_BINARIES.contains nm then none
    else
      match
        (if isAbsStr binary_path then some (parseParts binary_path)
         else pyResolve fs (fs.cwd ++ parseParts binary_path)) with
      | none => none
      | some q =>
        if !pyExists fs q then none
        else if !pyIsFile fs q then none
        else (pyResolve fs q).map toStringAbs

/-- `security.validate_name(name, max_length)`. -/
def validate_name (name : String) (max_length : Nat) : Option String :=
  if name = "" then none
  else if name.length > max_length then none
  else if !reMatchClass nameChar name then none
  else some name

/-- `security.validate_path_argument(path, allowed_root, must_exist,
follow_symlinks)`.  The character filter runs before anything touches the
filesystem; with a root the work is delegated to `safe_resolve_path`, without
one only the optional existence check and the leaf symlink check apply and the
input string is returned verbatim. -/
def validate_path_argument (fs : FS) (path : String)
    (allowed_root : Option String) (must_exist : Bool)
    (follow_symlinks : Bool) : Option String :=
  if path = "" then none
  else if !reMatchClass pathChar path then none
  else
    match allowed_root with
    | some root =>
      match safe_resolve_path fs path root follow_symlinks with
      | none => none
      | some resolved =>
        if must_exist && !pyExists fs resolved then none
        else some (toStringAbs resolved)
    | none =>
      let q := absComps fs path
      if must_exist && !pyExists fs q then none
      else if !follow_symlinks && (pyExists fs q && pyIsSymlink fs q) then none
      else some path

/-- The literal warning text of `check_insecure_flag`. -/
def insecureWarning : String :=
  "SECURITY WARNING: The 'insecure' option disables SSL certificate " ++
  "verification, exposing your API credentials to man-in-the-middle attacks. " ++
  "To proceed, you must set 'acknowledge_insecure_risk': true to confirm " ++
  "you understand and accept this security risk. " ++
  "Consider configuring proper SSL certificates instead."

/-- `security.check_insecure_flag(insecure, acknowledged)`.  The only side
effect of the source on the accepted-risk path is a log line; the embedding is
the pure input-output behaviour. -/
def check_insecure_flag (insecure acknowledged : Bool) : Bool × Option String :=
  if !insecure then (true, none)
  else if !acknowledged then (false, some insecureWarning)
  else (true, none)

/-! ## server.py: the Command Runner -/

/-- The structured result dictionary every handler and the runner return. -/
structure ExecutionOutcome where
  success : Bool
  stdout : String
  stderr : String
  returncode : Int
deriving DecidableEq

/-- Outcome of one `subprocess.run` invocation, as seen by the `try` block of
`run_sdk_command`: normal completion, `subprocess.TimeoutExpired`, or any
other exception with its type name and `str(e)` message. -/
inductive SpawnResult where
  | completed (returncode : Int) (stdout stderr : String) : SpawnResult
  | timedOut : SpawnResult
  | failed (excType excMsg : String) : SpawnResult
deriving DecidableEq

/-- `server.run_sdk_command(args)`.  The binary comes from the
`DEMISTO_SDK_BIN` environment variable with default `"demisto-sdk"` and must
pass `validate_sdk_binary`; the spawn itself is an oracle from the full argv
(validated binary consed onto `args`) to a `SpawnResult`.  Content-root
resolution only selects the child's working directory and environment, which
the oracle absorbs; it builds no argv token.  The source's `except` clauses
map a timeout to the fixed message and any other exception to
`stderr = str(e)` (its type name goes to the logger only), so the function
never lets an exception propagate — it is total. -/
def run_sdk_command (env : Env) (fs : FS)
    (spawn : List String → SpawnResult) (args : List String) :
    ExecutionOutcome :=
  let sdk_bin_input := (env.vars "DEMISTO_SDK_BIN").getD "demisto-sdk"
  match validate_sdk_binary env fs sdk_bin_input with
  | none =>
    { success := false, stdout := ""
      stderr := "Invalid or untrusted SDK binary: " ++ sdk_bin_input ++
        ". Only 'demisto-sdk' is allowed."
      returncode := -1 }
  | some sdk_bin =>
    match spawn (sdk_bin :: args) with
    | SpawnResult.completed rc out err =>
      { success := rc = 0, stdout := out, stderr := err, returncode := rc }
    | SpawnResult.timedOut =>
      { success := false, stdout := ""
        stderr := "Command timed out after 300 seconds", returncode := -1 }
    | SpawnResult.failed _ msg =>
      { success := false, stdout := "", stderr := msg, returncode := -1 }

/-! ## server.py: tool handlers

Each handler's straight-line body first validates fields (returning
`_error_result(message)` on the first failure) and then calls
`run_sdk_command` exactly once on the assembled vector.  That shape is
captured by a builder `... → Except String (List String)`: `Except.error m`
is the early `_error_result(m)` return, `Except.ok cmd` the vector handed to
the runner.  Optional dictionary fields appear as `Option String` / `Bool`;
Python's walrus-truthiness test (`None` and `""` both skip) is `optTruthy`. -/

/-- `server._error_result(message)`. -/
def errorResult (message : String) : ExecutionOutcome :=
  { success := false, stdout := "", stderr := message, returncode := -1 }

/-- Truthiness of an optional string field: present and non-empty. -/
def optTruthy : Option String → Option String
  | some s => if s = "" then none else some s
  | none => none

structure InitPackArgs where
  name : String
  output_dir : Option String

structure InitIntegrationArgs where
  name : String
  pack : String
  template : Option String

structure InitScriptArgs where
  name : String
  pack : String

structure FormatArgs where
  input_path : String
  assume_yes : Bool

structure ValidateArgs where
  input_path : String
  use_git : Bool

structure LintArgs where
  input_path : String

structure DocsArgs where
  input_path : String
  output_path : Option String
  force : Bool

structure UploadArgs where
  input_path : String
  insecure : Bool
  acknowledge_insecure_risk : Bool

structure DownloadArgs where
  output_path : String
  input_path : Option String
  all_content : Bool

structure ListFilesArgs where
  output_path : Option String
  insecure : Bool
  acknowledge_insecure_risk : Bool

structure FindDepsArgs where
  input_path : String
  update_pack_metadata : Bool

structure UpdateReleaseNotesArgs where
  input_path : String
  version : Option String
  text : Option String

structure ZipPacksArgs where
  input_path : String
  output_path : String

structure GenUnitTestsArgs where
  input_path : String
  output_path : Option String

structure GenTestPlaybookArgs where
  input_path : String
  output_path : Option String

structure GenOutputsArgs where
  input_path : String
  command : String
  json_path : Option String

structure RunCommandArgs where
  command : String
  args : Option String

structure RunPlaybookArgs where
  playbook_id : String
  wait : Bool

structure OpenapiArgs where
  input_path : String
  output_path : Option String
  name : Option String

structure PostmanArgs where
  input_path : String
  output_path : Option String
  name : Option String

/-- `handle_init_pack`. -/
def init_pack_cmd (fs : FS) (a : InitPackArgs) : Except String (List String) :=
  match validate_name a.name 100 with
  | none => Except.error
      "Invalid pack name. Use only alphanumeric characters, underscores, and hyphens."
  | some name =>
    match optTruthy a.output_dir with
    | none => Except.ok ["init", "--pack", "-n", name]
    | some od =>
      match validate_path_argument fs od none false false with
      | none => Except.error "Invalid output directory path."
      | some d => Except.ok ["init", "--pack", "-n", name, "-o", d]

/-- `handle_init_integration`. -/
def init_integration_cmd (a : InitIntegrationArgs) :
    Except String (List String) :=
  match validate_name a.name 100 with
  | none => Except.error
      "Invalid integration name. Use only alphanumeric characters, underscores, and hyphens."
  | some name =>
    match validate_name a.pack 100 with
    | none => Except.error
        "Invalid pack name. Use only alphanumeric characters, underscores, and hyphens."
    | some pack =>
      match optTruthy a.template with
      | none => Except.ok ["init", "--integration", "-n", name, "-p", pack]
      | some tpl =>
        match validate_name tpl 100 with
        | none => Except.error "Invalid template name."
        | some t =>
          Except.ok ["init", "--integration", "-n", name, "-p", pack,
            "--template", t]

/-- `handle_init_script`. -/
def init_script_cmd (a : InitScriptArgs) : Except String (List String) :=
  match validate_name a.name 100 with
  | none => Except.error
      "Invalid script name. Use only alphanumeric characters, underscores, and hyphens."
  | some name =>
    match validate_name a.pack 100 with
    | none => Except.error
        "Invalid pack name. Use only alphanumeric characters, underscores, and hyphens."
    | some pack => Except.ok ["init", "--script", "-n", name, "-p", pack]

/-- `handle_format_content`. -/
def format_content_cmd (fs : FS) (a : FormatArgs) :
    Except String (List String) :=
  match validate_path_argument fs a.input_path none false false with
  | none => Except.error "Invalid input path."
  | some ip =>
    if a.assume_yes then Except.ok ["format", "-i", ip, "-y"]
    else Except.ok ["format", "-i", ip]

/-- `handle_validate_content`. -/
def validate_content_cmd (fs : FS) (a : ValidateArgs) :
    Except String (List String) :=
  match validate_path_argument fs a.input_path none false false with
  | none => Except.error "Invalid input path."
  | some ip =>
    if a.use_git then Except.ok ["validate", "-i", ip, "-g"]
    else Except.ok ["validate", "-i", ip]

/-- `handle_lint_content`. -/
def lint_content_cmd (fs : FS) (a : LintArgs) : Except String (List String) :=
  match validate_path_argument fs a.input_path none false false with
  | none => Except.error "Invalid input path."
  | some ip => Except.ok ["xsoar-lint", ip]

/-- `handle_generate_docs`. -/
def generate_docs_cmd (fs : FS) (a : DocsArgs) : Except String (List String) :=
  match validate_path_argument fs a.input_path none false false with
  | none => Except.error "Invalid input path."
  | some ip =>
    match optTruthy a.output_path with
    | none =>
      if a.force then Except.ok ["generate-docs", "-i", ip, "-f"]
      else Except.ok ["generate-docs", "-i", ip]
    | some op =>
      match validate_path_argument fs op none false false with
      | none => Except.error "Invalid output path."
      | some o =>
        if a.force then Except.ok ["generate-docs", "-i", ip, "-o", o, "-f"]
        else Except.ok ["generate-docs", "-i", ip, "-o", o]

/-- `handle_upload_content`. -/
def upload_content_cmd (fs : FS) (a : UploadArgs) :
    Except String (List String) :=
  match validate_path_argument fs a.input_path none false false with
  | none => Except.error "Invalid input path."
  | some ip =>
    match check_insecure_flag a.insecure a.acknowledge_insecure_risk with
    | (false, msg) =>
      Except.error (msg.getD "Insecure flag requires acknowledgment.")
    | (true, _) =>
      if a.insecure then Except.ok ["upload", "-i", ip, "--insecure"]
      else Except.ok ["upload", "-i", ip]

/-- `handle_download_content`. -/
def download_content_cmd (fs : FS) (a : DownloadArgs) :
    Except String (List String) :=
  match validate_path_argument fs a.output_path none false false with
  | none => Except.error "Invalid output path."
  | some op =>
    match optTruthy a.input_path with
    | none =>
      if a.all_content then Except.ok ["download", "-o", op, "-a"]
      else Except.ok ["download", "-o", op]
    | some ipRaw =>
      match validate_path_argument fs ipRaw none false false with
      | none => Except.error "Invalid input path."
      | some ip =>
        if a.all_content then Except.ok ["download", "-o", op, "-i", ip, "-a"]
        else Except.ok ["download", "-o", op, "-i", ip]

/-- `handle_list_files`. -/
def list_files_cmd (fs : FS) (a : ListFilesArgs) :
    Except String (List String) :=
  match check_insecure_flag a.insecure a.acknowledge_insecure_risk with
  | (false, msg) =>
    Except.error (msg.getD "Insecure flag requires acknowledgment.")
  | (true, _) =>
    match optTruthy a.output_path with
    | none =>
      if a.insecure then Except.ok ["download", "-lf", "--insecure"]
      else Except.ok ["download", "-lf"]
    | some opRaw =>
      match validate_path_argument fs opRaw none false false with
      | none => Except.error "Invalid output path."
      | some op =>
        if a.insecure then Except.ok ["download", "-lf", "-o", op, "--insecure"]
        else Except.ok ["download", "-lf", "-o", op]

/-- `handle_find_dependencies`. -/
def find_dependencies_cmd (fs : FS) (a : FindDepsArgs) :
    Except String (List String) :=
  match validate_path_argument fs a.input_path none false false with
  | none => Except.error "Invalid input path."
  | some ip =>
    if a.update_pack_metadata then
      Except.ok ["find-dependencies", "-i", ip, "--update-pack-metadata"]
    else Except.ok ["find-dependencies", "-i", ip]

/-- `handle_update_release_notes`.  The `text` field is forwarded verbatim by
design (the external binary treats it as opaque data). -/
def update_release_notes_cmd (fs : FS) (a : UpdateReleaseNotesArgs) :
    Except String (List String) :=
  match validate_path_argument fs a.input_path none false false with
  | none => Except.error "Invalid input path."
  | some ip =>
    let base := ["update-release-notes", "-i", ip]
    match optTruthy a.version with
    | some v =>
      if v ≠ "major" ∧ v ≠ "minor" ∧ v ≠ "revision" then
        Except.error "Invalid version. Must be: major, minor, or revision."
      else
        match optTruthy a.text with
        | some t => Except.ok (base ++ ["-v", v] ++ ["--text", t])
        | none => Except.ok (base ++ ["-v", v])
    | none =>
      match optTruthy a.text with
      | some t => Except.ok (base ++ ["--text", t])
      | none => Except.ok base

/-- `handle_zip_packs`. -/
def zip_packs_cmd (fs : FS) (a : ZipPacksArgs) : Except String (List String) :=
  match validate_path_argument fs a.input_path none false false with
  | none => Except.error "Invalid input path."
  | some ip =>
    match validate_path_argument fs a.output_path none false false with
    | none => Except.error "Invalid output path."
    | some op => Except.ok ["zip-packs", "-i", ip, "-o", op]

/-- `handle_generate_unit_tests`. -/
def generate_unit_tests_cmd (fs : FS) (a : GenUnitTestsArgs) :
    Except String (List String) :=
  match validate_path_argument fs a.input_path none false false with
  | none => Except.error "Invalid input path."
  | some ip =>
    match optTruthy a.output_path with
    | none => Except.ok ["generate-unit-tests", "-i", ip]
    | some opRaw =>
      match validate_path_argument fs opRaw none false false with
      | none => Except.error "Invalid output path."
      | some op => Except.ok ["generate-unit-tests", "-i", ip, "-o", op]

/-- `handle_generate_test_playbook`. -/
def generate_test_playbook_cmd (fs : FS) (a : GenTestPlaybookArgs) :
    Except String (List String) :=
  match validate_path_argument fs a.input_path none false false with
  | none => Except.error "Invalid input path."
  | some ip =>
    match optTruthy a.output_path with
    | none => Except.ok ["generate-test-playbook", "-i", ip]
    | some opRaw =>
      match validate_path_argument fs opRaw none false false with
      | none => Except.error "Invalid output path."
      | some op => Except.ok ["generate-test-playbook", "-i", ip, "-o", op]

/-- `handle_generate_outputs`. -/
def generate_outputs_cmd (fs : FS) (a : GenOutputsArgs) :
    Except String (List String) :=
  match validate_path_argument fs a.input_path none false false with
  | none => Except.error "Invalid input path."
  | some ip =>
    match validate_name a.command 100 with
    | none => Except.error
        "Invalid command name. Use only alphanumeric characters, underscores, and hyphens."
    | some c =>
      match optTruthy a.json_path with
      | none => Except.ok ["generate-outputs", "-i", ip, "-c", c]
      | some jpRaw =>
        match validate_path_argument fs jpRaw none false false with
        | none => Except.error "Invalid JSON path."
        | some jp => Except.ok ["generate-outputs", "-i", ip, "-c", c, "-j", jp]

/-- `handle_run_command`.  Both the command and its JSON argument string are
forwarded to the external binary, which treats them as data for the remote
instance (pass-through by design; only presence is checked). -/
def run_command_cmd (a : RunCommandArgs) : Except String (List String) :=
  if a.command = "" then Except.error "Command is required."
  else
    match optTruthy a.args with
    | some s => Except.ok ["run", "-q", a.command, "--args", s]
    | none => Except.ok ["run", "-q", a.command]

/-- `handle_run_playbook`.  The playbook id is forwarded to the external
binary as data for the remote instance (pass-through; only presence is
checked). -/
def run_playbook_cmd (a : RunPlaybookArgs) : Except String (List String) :=
  if a.playbook_id = "" then Except.error "Playbook ID is required."
  else if a.wait then Except.ok ["run-playbook", "-p", a.playbook_id, "--wait"]
  else Except.ok ["run-playbook", "-p", a.playbook_id]

/-- `handle_openapi_codegen`. -/
def openapi_codegen_cmd (fs : FS) (a : OpenapiArgs) :
    Except String (List String) :=
  match validate_path_argument fs a.input_path none false false with
  | none => Except.error "Invalid input path."
  | some ip =>
    let step2 : Except String (List String) :=
      match optTruthy a.output_path with
      | none => Except.ok ["openapi-codegen", "-i", ip]
      | some opRaw =>
        match validate_path_argument fs opRaw none false false with
        | none => Except.error "Invalid output path."
        | some op => Except.ok ["openapi-codegen", "-i", ip, "-o", op]
    match step2 with
    | Except.error m => Except.error m
    | Except.ok cmd =>
      match optTruthy a.name with
      | none => Except.ok cmd
      | some nRaw =>
        match validate_name nRaw 100 with
        | none => Except.error
            "Invalid name. Use only alphanumeric characters, underscores, and hyphens."
        | some n => Except.ok (cmd ++ ["-n", n])

/-- `handle_postman_codegen`. -/
def postman_codegen_cmd (fs : FS) (a : PostmanArgs) :
    Except String (List String) :=
  match validate_path_argument fs a.input_path none false false with
  | none => Except.error "Invalid input path."
  | some ip =>
    let step2 : Except String (List String) :=
      match optTruthy a.output_path with
      | none => Except.ok ["postman-codegen", "-i", ip]
      | some opRaw =>
        match validate_path_argument fs opRaw none false false with
        | none => Except.error "Invalid output path."
        | some op => Except.ok ["postman-codegen", "-i", ip, "-o", op]
    match step2 with
    | Except.error m => Except.error m
    | Except.ok cmd =>
      match optTruthy a.name with
      | none => Except.ok cmd
      | some nRaw =>
        match validate_name nRaw 100 with
        | none => Except.error
            "Invalid name. Use only alphanumeric characters, underscores, and hyphens."
        | some n => Except.ok (cmd ++ ["-n", n])

/-- One SDK tool invocation: the tool name together with its extracted
arguments, covering every entry of the `sdk_handlers` dispatch table. -/
inductive ToolCall where
  | init_pack (a : InitPackArgs)
  | init_integration (a : InitIntegrationArgs)
  | init_script (a : InitScriptArgs)
  | format_content (a : FormatArgs)
  | validate_content (a : ValidateArgs)
  | lint_content (a : LintArgs)
  | generate_docs (a : DocsArgs)
  | upload_content (a : UploadArgs)
  | download_content (a : DownloadArgs)
  | list_files (a : ListFilesArgs)
  | find_dependencies (a : FindDepsArgs)
  | update_release_notes (a : UpdateReleaseNotesArgs)
  | zip_packs (a : ZipPacksArgs)
  | generate_unit_tests (a : GenUnitTestsArgs)
  | generate_test_playbook (a : GenTestPlaybookArgs)
  | generate_outputs (a : GenOutputsArgs)
  | run_command (a : RunCommandArgs)
  | run_playbook (a : RunPlaybookArgs)
  | openapi_codegen (a : OpenapiArgs)
  | postman_codegen (a : PostmanArgs)

/-- The validation-and-assembly stage of the handler for each tool. -/
def buildCmd (fs : FS) : ToolCall → Except String (List String)
  | ToolCall.init_pack a => init_pack_cmd fs a
  | ToolCall.init_integration a => init_integration_cmd a
  | ToolCall.init_script a => init_script_cmd a
  | ToolCall.format_content a => format_content_cmd fs a
  | ToolCall.validate_content a => validate_content_cmd fs a
  | ToolCall.lint_content a => lint_content_cmd fs a
  | ToolCall.generate_docs a => generate_docs_cmd fs a
  | ToolCall.upload_content a => upload_content_cmd fs a
  | ToolCall.download_content a => download_content_cmd fs a
  | ToolCall.list_files a => list_files_cmd fs a
  | ToolCall.find_dependencies a => find_dependencies_cmd fs a
  | ToolCall.update_release_notes a => update_release_notes_cmd fs a
  | ToolCall.zip_packs a => zip_packs_cmd fs a
  | ToolCall.generate_unit_tests a => generate_unit_tests_cmd fs a
  | ToolCall.generate_test_playbook a => generate_test_playbook_cmd fs a
  | ToolCall.generate_outputs a => generate_outputs_cmd fs a
  | ToolCall.run_command a => run_command_cmd a
  | ToolCall.run_playbook a => run_playbook_cmd a
  | ToolCall.openapi_codegen a => openapi_codegen_cmd fs a
  | ToolCall.postman_codegen a => postman_codegen_cmd fs a

/-- A handler: build the vector, returning `_error_result` on the first
validation failure, otherwise hand the vector to the Command Runner. -/
def dispatchTool (env : Env) (fs : FS)
    (spawn : List String → SpawnResult) (tc : ToolCall) : ExecutionOutcome :=
  match buildCmd fs tc with
  | Except.error m => errorResult m
  | Except.ok cmd => run_sdk_command env fs spawn cmd

/-! ## Token classification for the argument-vector invariant -/

/-- Every literal argv token a handler can emit (subcommands and flags). -/
def staticTokens : List String :=
  ["init", "--pack", "--integration", "--script", "-n", "-p", "--template",
   "-o", "format", "-i", "-y", "validate", "-g", "xsoar-lint",
   "generate-docs", "-f", "upload", "--insecure", "download", "-a", "-lf",
   "find-dependencies", "--update-pack-metadata", "update-release-notes",
   "-v", "--text", "zip-packs", "generate-unit-tests",
   "generate-test-playbook", "generate-outputs", "-c", "-j", "run", "-q",
   "--args", "run-playbook", "--wait", "openapi-codegen", "postman-codegen"]

/-- The closed set accepted by the `version` enumerated-value check. -/
def versionEnum : List String := ["major", "minor", "revision"]

/-- The pass-through fields: values the handlers forward verbatim because the
external binary treats them as opaque data — the release-notes body, the
remote command and its JSON argument string, and the remote playbook id. -/
def opaquePassThrough : ToolCall → String → Prop
  | ToolCall.run_command a, t => t = a.command ∨ optTruthy a.args = some t
  | ToolCall.run_playbook a, t => t = a.playbook_id
  | ToolCall.update_release_notes a, t => optTruthy a.text = some t
  | _, _ => False

/-- Classification of one argv token under the dispatch-layer invariant: a
static flag/subcommand token, a name the Name Validator accepts unchanged, a
path the (rootless) Path Validator accepts unchanged, a member of the fixed
version enumeration, or a designated opaque pass-through field of this
invocation. -/
def TokenOK (fs : FS) (tc : ToolCall) (t : String) : Prop :=
  t ∈ staticTokens ∨ validate_name t 100 = some t ∨
  validate_path_argument fs t none false false = some t ∨
  t ∈ versionEnum ∨ opaquePassThrough tc t

/-! ## Concrete fixtures used by witnesses and counterexamples -/

/-- A small concrete filesystem: a content root `/root` holding `a/b.txt`, an
out-of-root file `/outside` and the system file `/etc/passwd`, a symbolic
link `/root/link → /outside` escaping the root, a relative symbolic link
`/root/rlink → a` staying inside it, and the SDK binary installed at
`/usr/local/bin/demisto-sdk`. -/
def fsA : FS :=
  { lookup := fun p =>
      if p = [] then some Node.dir
      else if p = ["root"] then some Node.dir
      else if p = ["root", "a"] then some Node.dir
      else if p = ["root", "a", "b.txt"] then some Node.file
      else if p = ["etc"] then some Node.dir
      else if p = ["etc", "passwd"] then some Node.file
      else if p = ["outside"] then some Node.file
      else if p = ["root", "link"] then some (Node.symlink "/outside")
      else if p = ["root", "rlink"] then some (Node.symlink "a")
      else if p = ["usr"] then some Node.dir
      else if p = ["usr", "local"] then some Node.dir
      else if p = ["usr", "local", "bin"] then some Node.dir
      else if p = ["usr", "local", "bin", "demisto-sdk"] then some Node.file
      else none
    cwd := ["home", "user"]
    fuel := 50 }

/-- A filesystem with nothing on it. -/
def fsEmpty : FS :=
  { lookup := fun _ => none, cwd := [], fuel := 50 }

/-- A concrete environment: `DEMISTO_SDK_BIN` unset, `demisto-sdk` the only
name `shutil.which` finds. -/
def envC : Env :=
  { vars := fun _ => none
    which := fun s =>
      if s = "demisto-sdk" then some "/usr/local/bin/demisto-sdk" else none }

/-- A spawn oracle whose process times out. -/
def spawnTimeoutC : List String → SpawnResult :=
  fun _ => SpawnResult.timedOut

/-- A spawn oracle that fails with a `PermissionError`; `str(e)` carries the
errno text, the type name lives only in `type(e).__name__`. -/
def spawnFailC : List String → SpawnResult :=
  fun _ => SpawnResult.failed "PermissionError" "[Errno 13] Permission denied"

/-- A spawn oracle that completes normally with exit code 0. -/
def spawnOkC : List String → SpawnResult :=
  fun _ => SpawnResult.completed 0 "done" ""

/-! ## Helper lemmas -/

/-- `validate_name` never rewrites an accepted name. -/
theorem validate_name_eq {s t : String} {n : Nat}
    (h : validate_name s n = some t) : t = s := by
  unfold validate_name at h
  repeat split at h
  all_goals simp_all

/-- Re-validating the output of `validate_name` accepts it unchanged. -/
theorem validate_name_idem {s t : String} {n : Nat}
    (h : validate_name s n = some t) : validate_name t n = some t := by
  have ht := validate_name_eq h
  subst ht
  exact h

/-- Without a root, `validate_path_argument` never rewrites an accepted
path. -/
theorem vpa_noroot_eq {fs : FS} {path t : String} {me fl : Bool}
    (h : validate_path_argument fs path none me fl = some t) : t = path := by
  unfold validate_path_argument at h
  repeat split at h
  all_goals simp_all

/-- Re-validating the rootless output of `validate_path_argument` accepts it
unchanged. -/
theorem vpa_noroot_idem {fs : FS} {path t : String} {me fl : Bool}
    (h : validate_path_argument fs path none me fl = some t) :
    validate_path_argument fs t none me fl = some t := by
  have ht := vpa_noroot_eq h
  subst ht
  exact h

/-- Whatever the symlink policy, an accepted path of `safe_resolve_path` lies
at or below the canonical allowed root. -/
theorem srp_some_contained {fs : FS} {path root : String} {fl : Bool}
    {res : List String} (h : safe_resolve_path fs path root fl = some res) :
    ∃ rr, pyResolve fs (absComps fs root) = some rr ∧
      rr.isPrefixOf res = true := by
  unfold safe_resolve_path at h
  split at h
  · simp_all
  · cases hr : pyResolve fs (absComps fs root) with
    | none => rw [hr] at h; simp_all
    | some rr =>
      rw [hr] at h
      simp only at h
      cases hj : pyResolve fs (joinedOf rr path) with
      | none => rw [hj] at h; simp_all
      | some resolved =>
        rw [hj] at h
        simp only at h
        repeat split at h
        all_goals simp_all
        exact h.2 ▸ h.1

/-- A token from the static list is classified. -/
theorem tokenOK_static {fs : FS} {tc : ToolCall} {t : String}
    (h : t ∈ staticTokens) : TokenOK fs tc t :=
  Or.inl h

/-- A token the Name Validator produced is classified. -/
theorem tokenOK_name {fs : FS} {tc : ToolCall} {s t : String}
    (h : validate_name s 100 = some t) : TokenOK fs tc t :=
  Or.inr (Or.inl (validate_name_idem h))

/-- A token the rootless Path Validator produced is classified. -/
theorem tokenOK_path {fs : FS} {tc : ToolCall} {s t : String}
    (h : validate_path_argument fs s none false false = some t) :
    TokenOK fs tc t :=
  Or.inr (Or.inr (Or.inl (vpa_noroot_idem h)))

/-- A token from the version enumeration is classified. -/
theorem tokenOK_enum {fs : FS} {tc : ToolCall} {t : String}
    (h : t ∈ versionEnum) : TokenOK fs tc t :=
  Or.inr (Or.inr (Or.inr (Or.inl h)))

/-- A designated opaque pass-through token is classified. -/
theorem tokenOK_opaque {fs : FS} {tc : ToolCall} {t : String}
    (h : opaquePassThrough tc t) : TokenOK fs tc t :=
  Or.inr (Or.inr (Or.inr (Or.inr h)))

/-! ## Claims -/

/-- C7: `check_insecure_flag` satisfies the full truth table — `(False, _)`
yields `(True, None)`, `(True, False)` yields `(False, m)` with `m`
containing the exact field name `acknowledge_insecure_risk`, and
`(True, True)` yields `(True, None)`.  Purity holds by construction: the
embedding is a total function of its two arguments and the only side effect
in the source is the warning log on the accepted-risk path. -/
theorem check_insecure_flag_table :
    check_insecure_flag false false = (true, none) ∧
    check_insecure_flag false true = (true, none) ∧
    check_insecure_flag true false = (false, some insecureWarning) ∧
    check_insecure_flag true true = (true, none) ∧
    strContains insecureWarning "acknowledge_insecure_risk" = true := by
  refine ⟨rfl, rfl, rfl, rfl, ?_⟩
  decide

/-- C5 (code bug): `validate_name` was meant to accept exactly the full-string
matches of `^[A-Za-z0-9_\-]+$`, but the source tests the pattern with
`re.match` whose `$` also matches just before one trailing newline, so
`"abc\n"` — which contains a character outside the class — is returned
unchanged.  The slash-rejection part of the claim does hold. -/
theorem validate_name_trailing_newline :
    nameChar '\n' = false ∧
    validate_name "abc\n" 100 = some "abc\n" ∧
    validate_name "../etc/passwd" 100 = none ∧
    validate_name "my/pack" 100 = none := by
  refine ⟨rfl, rfl, ?_, ?_⟩ <;> decide

/-- C4 (code bug): `validate_path_argument` was meant to reject every string
containing a character outside the allowed class (letters, digits,
underscore, hyphen, dot, slash) before resolving anything,
but the `re.match` + `$` combination lets a single trailing newline through:
`"abc\n"` is accepted verbatim.  All the listed shell metacharacters are
genuinely rejected, as the sample inputs show. -/
theorem validate_path_argument_trailing_newline :
    pathChar '\n' = false ∧
    validate_path_argument fsEmpty "abc\n" none false false = some "abc\n" ∧
    validate_path_argument fsEmpty "file;rm" none false false = none ∧
    validate_path_argument fsEmpty "a|b" none false false = none ∧
    validate_path_argument fsEmpty "a b" none false false = none ∧
    validate_path_argument fsEmpty "a$(id)" none false false = none := by
  refine ⟨rfl, ?_, ?_, ?_, ?_, ?_⟩ <;> decide

/-- C10: with no `allowed_root` (the default), every path
`validate_path_argument` accepts is returned verbatim, with no
canonicalization; in particular `"../../etc/passwd"` passes the character
allowlist and comes back unchanged. -/
theorem vpa_no_root_verbatim :
    (∀ (fs : FS) (path : String) (me fl : Bool) (r : String),
      validate_path_argument fs path none me fl = some r → r = path) ∧
    validate_path_argument fsEmpty "../../etc/passwd" none false false =
      some "../../etc/passwd" := by
  refine ⟨?_, ?_⟩
  · intro fs path me fl r h
    exact vpa_noroot_eq h
  · decide

/-- Closed witness for C10 at a concrete traversal string. -/
theorem vpa_no_root_verbatim_witness :
    validate_path_argument fsEmpty "../../etc/passwd" none false false =
      some "../../etc/passwd" ∧ "../../etc/passwd" = "../../etc/passwd" := by
  refine ⟨vpa_no_root_verbatim.2, ?_⟩
  exact vpa_no_root_verbatim.1 fsEmpty "../../etc/passwd" false false
    "../../etc/passwd" vpa_no_root_verbatim.2

/-- C6: `validate_sdk_binary` (1) rejects every bare name outside the
allowlist whatever `shutil.which` would find, (2) returns exactly the
`PATH`-lookup result for an allowlisted bare name (so rejection when nothing
is found), (3) rejects every input with a directory component whose basename
is not allowlisted, and (4) for an allowlisted basename with a directory
component returns the resolved absolute path exactly when the path exists
and is a regular file, rejecting otherwise. -/
theorem validate_sdk_binary_spec :
    (∀ (env : Env) (fs : FS) (s : String), pyName s = s →
      ALLOWED_SDK_BINARIES.contains s = false →
      validate_sdk_binary env fs s = none) ∧
    (∀ (env : Env) (fs : FS) (s : String), pyName s = s →
      ALLOWED_SDK_BINARIES.contains s = true →
      validate_sdk_binary env fs s = env.which s) ∧
    (∀ (env : Env) (fs : FS) (s : String), s ≠ "" → pyName s ≠ s →
      ALLOWED_SDK_BINARIES.contains (pyName s) = false →
      validate_sdk_binary env fs s = none) ∧
    (∀ (env : Env) (fs : FS) (s : String) (q : List String), s ≠ "" →
      pyName s ≠ s → ALLOWED_SDK_BINARIES.contains (pyName s) = true →
      (if isAbsStr s then some (parseParts s)
       else pyResolve fs (fs.cwd ++ parseParts s)) = some q →
      validate_sdk_binary env fs s =
        if pyExists fs q && pyIsFile fs q then
          (pyResolve fs q).map toStringAbs
        else none) := by
  refine ⟨?_, ?_, ?_, ?_⟩
  · intro env fs s h1 h2
    have h2m : s ∉ ALLOWED_SDK_BINARIES := by simpa using h2
    by_cases hs : s = ""
    · simp [validate_sdk_binary, hs]
    · simp [validate_sdk_binary, hs, h1, h2m]
  · intro env fs s h1 h2
    have hd : s = "demisto-sdk" := by
      simpa [ALLOWED_SDK_BINARIES] using h2
    subst hd
    rfl
  · intro env fs s h1 h2 h3
    have h3m : pyName s ∉ ALLOWED_SDK_BINARIES := by simpa using h3
    simp [validate_sdk_binary, h1, h2, h3m]
  · intro env fs s q h1 h2 h3 h4
    unfold validate_sdk_binary
    rw [if_neg h1, if_neg h2, h3]
    simp only [Bool.not_true, if_false, h4]
    cases hE : pyExists fs q <;> cases hF : pyIsFile fs q <;> simp [hE, hF]

/-- Closed witness for C6: all four clauses at concrete inputs over the
fixture filesystem and environment. -/
theorem validate_sdk_binary_spec_witness :
    validate_sdk_binary envC fsA "arbitrary-tool" = none ∧
    validate_sdk_binary envC fsA "demisto-sdk" =
      some "/usr/local/bin/demisto-sdk" ∧
    validate_sdk_binary envC fsA "./tool" = none ∧
    validate_sdk_binary envC fsA "/usr/local/bin/demisto-sdk" =
      some "/usr/local/bin/demisto-sdk" := by
  refine ⟨?_, ?_, ?_, ?_⟩
  · exact validate_sdk_binary_spec.1 envC fsA "arbitrary-tool"
      (by rfl) (by rfl)
  · exact (validate_sdk_binary_spec.2.1 envC fsA "demisto-sdk"
      (by rfl) (by rfl)).trans (by rfl)
  · exact validate_sdk_binary_spec.2.2.1 envC fsA "./tool"
      (by decide) (by decide) (by rfl)
  · exact (validate_sdk_binary_spec.2.2.2 envC fsA "/usr/local/bin/demisto-sdk"
      ["usr", "local", "bin", "demisto-sdk"]
      (by decide) (by decide) (by rfl) (by rfl)).trans (by decide)

/-- C8 counterexample: when the spawn raises a `PermissionError` whose
`str(e)` is the errno text, the returned `stderr` is exactly that message —
the exception's type name is logged but does not appear in `stderr`, against
the claim that type and message are both captured there. -/
theorem run_sdk_command_type_not_in_stderr :
    run_sdk_command envC fsA spawnFailC ["validate", "-i", "Packs"] =
      { success := false, stdout := ""
        stderr := "[Errno 13] Permission denied", returncode := -1 } ∧
    strContains "[Errno 13] Permission denied" "PermissionError" = false := by
  refine ⟨by rfl, by decide⟩

/-- C8 as amended: once the binary validates, `run_sdk_command` is a total
function of the spawn outcome — a timeout yields `success=False`,
`returncode=-1` and the fixed `stderr` `"Command timed out after 300
seconds"`; any other invocation failure yields `returncode=-1`,
`success=False` and `stderr` equal to the exception's message (`str(e)`, the
type name being logged only); and on normal completion `success` is true iff
the external exit code is `0`, with stdout/stderr/returncode passed through.
No exception propagates: every branch returns a structured outcome. -/
theorem run_sdk_command_outcomes (env : Env) (fs : FS)
    (spawn : List String → SpawnResult) (args : List String) (b : String)
    (hb : validate_sdk_binary env fs
      ((env.vars "DEMISTO_SDK_BIN").getD "demisto-sdk") = some b) :
    (spawn (b :: args) = SpawnResult.timedOut →
      run_sdk_command env fs spawn args =
        { success := false, stdout := ""
          stderr := "Command timed out after 300 seconds"
          returncode := -1 }) ∧
    (∀ ty msg, spawn (b :: args) = SpawnResult.failed ty msg →
      run_sdk_command env fs spawn args =
        { success := false, stdout := "", stderr := msg, returncode := -1 }) ∧
    (∀ (rc : Int) (out err : String),
      spawn (b :: args) = SpawnResult.completed rc out err →
      run_sdk_command env fs spawn args =
        { success := decide (rc = 0), stdout := out, stderr := err
          returncode := rc }) := by
  refine ⟨?_, ?_, ?_⟩
  · intro ht
    unfold run_sdk_command
    simp only [hb, ht]
  · intro ty msg hf
    unfold run_sdk_command
    simp only [hb, hf]
  · intro rc out err hc
    unfold run_sdk_command
    simp only [hb, hc]

/-- Closed witness for C8 as amended: timeout, failure and success outcomes
at a concrete environment and spawn oracle. -/
theorem run_sdk_command_outcomes_witness :
    run_sdk_command envC fsA spawnTimeoutC ["validate"] =
      { success := false, stdout := ""
        stderr := "Command timed out after 300 seconds", returncode := -1 } ∧
    run_sdk_command envC fsA spawnOkC ["validate"] =
      { success := true, stdout := "done", stderr := "", returncode := 0 } := by
  refine ⟨?_, ?_⟩
  · exact (run_sdk_command_outcomes envC fsA spawnTimeoutC ["validate"]
      "/usr/local/bin/demisto-sdk" (by rfl)).1 (by rfl)
  · exact ((run_sdk_command_outcomes envC fsA spawnOkC ["validate"]
      "/usr/local/bin/demisto-sdk" (by rfl)).2.2 0 "done" "" (by rfl)).trans
      (by rfl)

/-- C2 counterexample: over the fixture filesystem, `/root/link` is a
symbolic link to `/outside`; with `follow_symlinks=True` the claim asserts
the resolved out-of-root target is returned, but the containment check still
runs after resolution and the call rejects. -/
theorem srp_follow_escape_rejected :
    safe_resolve_path fsA "link" "/root" true = none ∧
    pyResolve fsA ["root", "link"] = some ["outside"] := by
  exact ⟨by rfl, by rfl⟩

/-- C2 as amended: for a symlink `R/link` whose target lies outside `R`,
`follow_symlinks=False` rejects (the ancestor symlink walk fires) and
`follow_symlinks=True` also rejects, because the root-containment check
applies to the resolved target regardless of the symlink policy; the
resolved target is returned only when it stays inside the root, as the
in-root link `rlink → a` shows.  The first clause is the general containment
fact behind this. -/
theorem srp_symlink_policy :
    (∀ (fs : FS) (path root : String) (fl : Bool) (res : List String),
      safe_resolve_path fs path root fl = some res →
      ∃ rr, pyResolve fs (absComps fs root) = some rr ∧
        rr.isPrefixOf res = true) ∧
    safe_resolve_path fsA "link" "/root" false = none ∧
    safe_resolve_path fsA "link" "/root" true = none ∧
    safe_resolve_path fsA "rlink" "/root" true = some ["root", "a"] := by
  refine ⟨?_, by rfl, by rfl, by rfl⟩
  intro fs path root fl res h
  exact srp_some_contained h

/-- Closed witness for C2 as amended: containment instantiated at the
accepted in-root symlink resolution. -/
theorem srp_symlink_policy_witness :
    ∃ rr, pyResolve fsA (absComps fsA "/root") = some rr ∧
      rr.isPrefixOf ["root", "a"] = true :=
  srp_symlink_policy.1 fsA "rlink" "/root" true ["root", "a"] (by rfl)

/-- C3 counterexample: `/root/rlink` is a symbolic link to the in-root
directory `/root/a`, so the joined path resolves to a descendant of the
canonical root, yet `safe_resolve_path` (default `follow_symlinks=False`)
rejects it — refuting the claimed `iff` between acceptance and the resolved
path lying at or below the root. -/
theorem srp_inroot_symlink_rejected :
    safe_resolve_path fsA "rlink" "/root" false = none ∧
    pyResolve fsA (joinedOf ["root"] "rlink") = some ["root", "a"] ∧
    List.isPrefixOf ["root"] ["root", "a"] = true := by
  exact ⟨by rfl, by rfl, by rfl⟩

/-- C3 as amended: with the default `follow_symlinks=False`,
`safe_resolve_path` joins a relative path onto the canonical root,
canonicalizes, and accepts exactly when the resolution succeeds, the
resolved path is the root or a descendant of it, and additionally no
existing component of the joined path is a symbolic link; traversal and
absolute escapes are rejected and a path resolving to the root itself is
accepted, as the concrete clauses show. -/
theorem srp_root_containment :
    (∀ (fs : FS) (path root : String) (res : List String),
      path ≠ "" → root ≠ "" →
      (safe_resolve_path fs path root false = some res ↔
        ∃ rr, pyResolve fs (absComps fs root) = some rr ∧
          pyResolve fs (joinedOf rr path) = some res ∧
          walkHasSymlink fs (joinedOf rr path) = false ∧
          rr.isPrefixOf res = true)) ∧
    safe_resolve_path fsA "a/b.txt" "/root" false =
      some ["root", "a", "b.txt"] ∧
    safe_resolve_path fsA "../../../etc/passwd" "/root" false = none ∧
    safe_resolve_path fsA "/etc/passwd" "/root" false = none ∧
    safe_resolve_path fsA "." "/root" false = some ["root"] := by
  refine ⟨?_, by rfl, by rfl, by rfl, by rfl⟩
  intro fs path root res hpath hroot
  constructor
  · intro h
    unfold safe_resolve_path at h
    rw [if_neg (by simp [hpath, hroot])] at h
    cases hr : pyResolve fs (absComps fs root) with
    | none => rw [hr] at h; simp_all
    | some rr =>
      rw [hr] at h
      simp only at h
      cases hj : pyResolve fs (joinedOf rr path) with
      | none => rw [hj] at h; simp_all
      | some resolved =>
        rw [hj] at h
        simp only [Bool.not_false, Bool.true_and] at h
        refine ⟨rr, rfl, ?_⟩
        cases hw : walkHasSymlink fs (joinedOf rr path) with
        | true => rw [hw] at h; simp_all
        | false =>
          rw [hw] at h
          rw [if_neg (by simp)] at h
          by_cases hp : rr.isPrefixOf resolved = true
          · rw [if_pos hp] at h
            injection h with h2
            subst h2
            exact ⟨hj, rfl, hp⟩
          · rw [if_neg hp] at h
            exact absurd h (by simp)
  · rintro ⟨rr, hr, hj, hw, hp⟩
    unfold safe_resolve_path
    rw [if_neg (by simp [hpath, hroot]), hr]
    simp only [hj, hw, hp, Bool.not_false, Bool.true_and, Bool.false_eq_true,
      if_false, if_pos]

/-- Closed witness for C3 as amended: the characterization instantiated at
the accepted `a/b.txt` resolution. -/
theorem srp_root_containment_witness :
    ∃ rr, pyResolve fsA (absComps fsA "/root") = some rr ∧
      pyResolve fsA (joinedOf rr "a/b.txt") = some ["root", "a", "b.txt"] ∧
      walkHasSymlink fsA (joinedOf rr "a/b.txt") = false ∧
      rr.isPrefixOf ["root", "a", "b.txt"] = true :=
  (srp_root_containment.1 fsA "a/b.txt" "/root" ["root", "a", "b.txt"]
    (by decide) (by decide)).mp (by rfl)

/-- C9: whenever a handler's validation stage fails — a required field is
missing or any field is rejected by its validator — the handler returns the
structured error object `{success: false, stdout: "", stderr: reason,
returncode: -1}`.  The result is the same for every environment and every
spawn oracle, so no subprocess is involved; and the init-pack handler on the
injection attempt `"pack;rm -rf /"` produces exactly such an object whose
`stderr` contains `"Invalid"`. -/
theorem handler_validation_short_circuit :
    (∀ (env : Env) (fs : FS) (spawn : List String → SpawnResult)
        (tc : ToolCall) (m : String),
      buildCmd fs tc = Except.error m →
      dispatchTool env fs spawn tc =
        { success := false, stdout := "", stderr := m, returncode := -1 }) ∧
    (∀ (env : Env) (spawn : List String → SpawnResult),
      dispatchTool env fsA spawn
        (ToolCall.init_pack { name := "pack;rm -rf /", output_dir := none }) =
        { success := false, stdout := ""
          stderr := "Invalid pack name. Use only alphanumeric characters, underscores, and hyphens."
          returncode := -1 }) ∧
    strContains
      "Invalid pack name. Use only alphanumeric characters, underscores, and hyphens."
      "Invalid" = true := by
  refine ⟨?_, ?_, by decide⟩
  · intro env fs spawn tc m h
    unfold dispatchTool
    rw [h]
    rfl
  · intro env spawn
    rfl

/-- Closed witness for C9: the missing-required-field path of the run-command
handler, under a spawn oracle that would succeed if it were ever consulted. -/
theorem handler_validation_short_circuit_witness :
    dispatchTool envC fsA spawnOkC
      (ToolCall.run_command { command := "", args := none }) =
      { success := false, stdout := "", stderr := "Command is required."
        returncode := -1 } :=
  handler_validation_short_circuit.1 envC fsA spawnOkC
    (ToolCall.run_command { command := "", args := none })
    "Command is required." (by rfl)

/-- C1: every string in an argument vector the dispatch layer hands to
`run_sdk_command` is a static flag token or has passed its designated check —
the Name Validator, the rootless Path Validator, the fixed
`{major, minor, revision}` enumerated-value check, or the pass-through
reserved for the fields the external binary treats as opaque data (the
release-notes text, the remote command and its JSON argument string, and the
playbook id).  The case analysis walks every handler; each dynamic token is
produced by exactly the single check the handler routes it through. -/
theorem argv_tokens_validated (fs : FS) (tc : ToolCall) (cmd : List String)
    (h : buildCmd fs tc = Except.ok cmd) :
    ∀ t ∈ cmd, TokenOK fs tc t := by
  cases tc with
  | init_pack a =>
    simp only [buildCmd, init_pack_cmd] at h
    cases hn : validate_name a.name 100 with
    | none => simp [hn] at h
    | some name =>
      cases ho : optTruthy a.output_dir with
      | none =>
        simp [hn, ho] at h
        subst h
        intro t ht
        fin_cases ht <;>
          first
            | exact tokenOK_static (by decide)
            | exact tokenOK_name hn
      | some od =>
        cases hp : validate_path_argument fs od none false false with
        | none => simp [hn, ho, hp] at h
        | some d =>
          simp [hn, ho, hp] at h
          subst h
          intro t ht
          fin_cases ht <;>
            first
              | exact tokenOK_static (by decide)
              | exact tokenOK_name hn
              | exact tokenOK_path hp
  | init_integration a =>
    simp only [buildCmd, init_integration_cmd] at h
    cases hn : validate_name a.name 100 with
    | none => simp [hn] at h
    | some name =>
      cases hn2 : validate_name a.pack 100 with
      | none => simp [hn, hn2] at h
      | some pack =>
        cases ho : optTruthy a.template with
        | none =>
          simp [hn, hn2, ho] at h
          subst h
          intro t ht
          fin_cases ht <;>
            first
              | exact tokenOK_static (by decide)
              | exact tokenOK_name hn
              | exact tokenOK_name hn2
        | some tpl =>
          cases hn3 : validate_name tpl 100 with
          | none => simp [hn, hn2, ho, hn3] at h
          | some t3 =>
            simp [hn, hn2, ho, hn3] at h
            subst h
            intro t ht
            fin_cases ht <;>
              first
                | exact tokenOK_static (by decide)
                | exact tokenOK_name hn
                | exact tokenOK_name hn2
                | exact tokenOK_name hn3
  | init_script a =>
    simp only [buildCmd, init_script_cmd] at h
    cases hn : validate_name a.name 100 with
    | none => simp [hn] at h
    | some name =>
      cases hn2 : validate_name a.pack 100 with
      | none => simp [hn, hn2] at h
      | some pack =>
        simp [hn, hn2] at h
        subst h
        intro t ht
        fin_cases ht <;>
          first
            | exact tokenOK_static (by decide)
            | exact tokenOK_name hn
            | exact tokenOK_name hn2
  | format_content a =>
    simp only [buildCmd, format_content_cmd] at h
    cases hp : validate_path_argument fs a.input_path none false false with
    | none => simp [hp] at h
    | some ip =>
      cases hb : a.assume_yes with
      | false =>
        simp [hp, hb] at h
        subst h
        intro t ht
        fin_cases ht <;>
          first
            | exact tokenOK_static (by decide)
            | exact tokenOK_path hp
      | true =>
        simp [hp, hb] at h
        subst h
        intro t ht
        fin_cases ht <;>
          first
            | exact tokenOK_static (by decide)
            | exact tokenOK_path hp
  | validate_content a =>
    simp only [buildCmd, validate_content_cmd] at h
    cases hp : validate_path_argument fs a.input_path none false false with
    | none => simp [hp] at h
    | some ip =>
      cases hb : a.use_git with
      | false =>
        simp [hp, hb] at h
        subst h
        intro t ht
        fin_cases ht <;>
          first
            | exact tokenOK_static (by decide)
            | exact tokenOK_path hp
      | true =>
        simp [hp, hb] at h
        subst h
        intro t ht
        fin_cases ht <;>
          first
            | exact tokenOK_static (by decide)
            | exact tokenOK_path hp
  | lint_content a =>
    simp only [buildCmd, lint_content_cmd] at h
    cases hp : validate_path_argument fs a.input_path none false false with
    | none => simp [hp] at h
    | some ip =>
      simp [hp] at h
      subst h
      intro t ht
      fin_cases ht <;>
        first
          | exact tokenOK_static (by decide)
          | exact tokenOK_path hp
  | generate_docs a =>
    simp only [buildCmd, generate_docs_cmd] at h
    cases hp : validate_path_argument fs a.input_path none false false with
    | none => simp [hp] at h
    | some ip =>
      cases ho : optTruthy a.output_path with
      | none =>
        cases hf : a.force with
        | false =>
          simp [hp, ho, hf] at h
          subst h
          intro t ht
          fin_cases ht <;>
            first
              | exact tokenOK_static (by decide)
              | exact tokenOK_path hp
        | true =>
          simp [hp, ho, hf] at h
          subst h
          intro t ht
          fin_cases ht <;>
            first
              | exact tokenOK_static (by decide)
              | exact tokenOK_path hp
      | some op =>
        cases hp2 : validate_path_argument fs op none false false with
        | none => simp [hp, ho, hp2] at h
        | some o2 =>
          cases hf : a.force with
          | false =>
            simp [hp, ho, hp2, hf] at h
            subst h
            intro t ht
            fin_cases ht <;>
              first
                | exact tokenOK_static (by decide)
                | exact tokenOK_path hp
                | exact tokenOK_path hp2
          | true =>
            simp [hp, ho, hp2, hf] at h
            subst h
            intro t ht
            fin_cases ht <;>
              first
                | exact tokenOK_static (by decide)
                | exact tokenOK_path hp
                | exact tokenOK_path hp2
  | upload_content a =>
    simp only [buildCmd, upload_content_cmd] at h
    cases hp : validate_path_argument fs a.input_path none false false with
    | none => simp [hp] at h
    | some ip =>
      cases hcan : a.insecure with
      | false =>
        simp [hp, hcan, check_insecure_flag] at h
        subst h
        intro t ht
        fin_cases ht <;>
          first
            | exact tokenOK_static (by decide)
            | exact tokenOK_path hp
      | true =>
        cases hack : a.acknowledge_insecure_risk with
        | false => simp [hp, hcan, hack, check_insecure_flag] at h
        | true =>
          simp [hp, hcan, hack, check_insecure_flag] at h
          subst h
          intro t ht
          fin_cases ht <;>
            first
              | exact tokenOK_static (by decide)
              | exact tokenOK_path hp
  | download_content a =>
    simp only [buildCmd, download_content_cmd] at h
    cases hp : validate_path_argument fs a.output_path none false false with
    | none => simp [hp] at h
    | some op =>
      cases ho : optTruthy a.input_path with
      | none =>
        cases hb : a.all_content with
        | false =>
          simp [hp, ho, hb] at h
          subst h
          intro t ht
          fin_cases ht <;>
            first
              | exact tokenOK_static (by decide)
              | exact tokenOK_path hp
        | true =>
          simp [hp, ho, hb] at h
          subst h
          intro t ht
          fin_cases ht <;>
            first
              | exact tokenOK_static (by decide)
              | exact tokenOK_path hp
      | some ipr =>
        cases hp2 : validate_path_argument fs ipr none false false with
        | none => simp [hp, ho, hp2] at h
        | some ip2 =>
          cases hb : a.all_content with
          | false =>
            simp [hp, ho, hp2, hb] at h
            subst h
            intro t ht
            fin_cases ht <;>
              first
                | exact tokenOK_static (by decide)
                | exact tokenOK_path hp
                | exact tokenOK_path hp2
          | true =>
            simp [hp, ho, hp2, hb] at h
            subst h
            intro t ht
            fin_cases ht <;>
              first
                | exact tokenOK_static (by decide)
                | exact tokenOK_path hp
                | exact tokenOK_path hp2
  | list_files a =>
    simp only [buildCmd, list_files_cmd] at h
    cases hcan : a.insecure with
    | false =>
      cases ho : optTruthy a.output_path with
      | none =>
        simp [hcan, ho, check_insecure_flag] at h
        subst h
        intro t ht
        fin_cases ht <;>
          first
            | exact tokenOK_static (by decide)
      | some opr =>
        cases hp : validate_path_argument fs opr none false false with
        | none => simp [hcan, ho, hp, check_insecure_flag] at h
        | some op =>
          simp [hcan, ho, hp, check_insecure_flag] at h
          subst h
          intro t ht
          fin_cases ht <;>
            first
              | exact tokenOK_static (by decide)
              | exact tokenOK_path hp
    | true =>
      cases hack : a.acknowledge_insecure_risk with
      | false => simp [hcan, hack, check_insecure_flag] at h
      | true =>
        cases ho : optTruthy a.output_path with
        | none =>
          simp [hcan, hack, ho, check_insecure_flag] at h
          subst h
          intro t ht
          fin_cases ht <;>
            first
              | exact tokenOK_static (by decide)
        | some opr =>
          cases hp : validate_path_argument fs opr none false false with
          | none => simp [hcan, hack, ho, hp, check_insecure_flag] at h
          | some op =>
            simp [hcan, hack, ho, hp, check_insecure_flag] at h
            subst h
            intro t ht
            fin_cases ht <;>
              first
                | exact tokenOK_static (by decide)
                | exact tokenOK_path hp
  | find_dependencies a =>
    simp only [buildCmd, find_dependencies_cmd] at h
    cases hp : validate_path_argument fs a.input_path none false false with
    | none => simp [hp] at h
    | some ip =>
      cases hb : a.update_pack_metadata with
      | false =>
        simp [hp, hb] at h
        subst h
        intro t ht
        fin_cases ht <;>
          first
            | exact tokenOK_static (by decide)
            | exact tokenOK_path hp
      | true =>
        simp [hp, hb] at h
        subst h
        intro t ht
        fin_cases ht <;>
          first
            | exact tokenOK_static (by decide)
            | exact tokenOK_path hp
  | update_release_notes a =>
    simp only [buildCmd, update_release_notes_cmd] at h
    cases hp : validate_path_argument fs a.input_path none false false with
    | none => simp [hp] at h
    | some ip =>
      cases hv : optTruthy a.version with
      | none =>
        cases htx : optTruthy a.text with
        | none =>
          simp [hp, hv, htx] at h
          subst h
          intro t ht
          fin_cases ht <;>
            first
              | exact tokenOK_static (by decide)
              | exact tokenOK_path hp
        | some tx =>
          simp [hp, hv, htx] at h
          subst h
          intro t ht
          fin_cases ht <;>
            first
              | exact tokenOK_static (by decide)
              | exact tokenOK_path hp
              | exact tokenOK_opaque htx
      | some v =>
        by_cases hcond : v ≠ "major" ∧ v ≠ "minor" ∧ v ≠ "revision"
        · simp [hp, hv, hcond] at h
        · have hv2 : v ∈ versionEnum := by
            by_cases h1 : v = "major"
            · simp [versionEnum, h1]
            · by_cases h2 : v = "minor"
              · simp [versionEnum, h2]
              · have h3 : v = "revision" := by tauto
                simp [versionEnum, h3]
          cases htx : optTruthy a.text with
          | none =>
            simp [hp, hv, hcond, htx] at h
            subst h
            intro t ht
            fin_cases ht <;>
              first
                | exact tokenOK_static (by decide)
                | exact tokenOK_path hp
                | exact tokenOK_enum hv2
          | some tx =>
            simp [hp, hv, hcond, htx] at h
            subst h
            intro t ht
            fin_cases ht <;>
              first
                | exact tokenOK_static (by decide)
                | exact tokenOK_path hp
                | exact tokenOK_enum hv2
                | exact tokenOK_opaque htx
  | zip_packs a =>
    simp only [buildCmd, zip_packs_cmd] at h
    cases hp : validate_path_argument fs a.input_path none false false with
    | none => simp [hp] at h
    | some ip =>
      cases hp2 : validate_path_argument fs a.output_path none false false with
      | none => simp [hp, hp2] at h
      | some op =>
        simp [hp, hp2] at h
        subst h
        intro t ht
        fin_cases ht <;>
          first
            | exact tokenOK_static (by decide)
            | exact tokenOK_path hp
            | exact tokenOK_path hp2
  | generate_unit_tests a =>
    simp only [buildCmd, generate_unit_tests_cmd] at h
    cases hp : validate_path_argument fs a.input_path none false false with
    | none => simp [hp] at h
    | some ip =>
      cases ho : optTruthy a.output_path with
      | none =>
        simp [hp, ho] at h
        subst h
        intro t ht
        fin_cases ht <;>
          first
            | exact tokenOK_static (by decide)
            | exact tokenOK_path hp
      | some opr =>
        cases hp2 : validate_path_argument fs opr none false false with
        | none => simp [hp, ho, hp2] at h
        | some op =>
          simp [hp, ho, hp2] at h
          subst h
          intro t ht
          fin_cases ht <;>
            first
              | exact tokenOK_static (by decide)
              | exact tokenOK_path hp
              | exact tokenOK_path hp2
  | generate_test_playbook a =>
    simp only [buildCmd, generate_test_playbook_cmd] at h
    cases hp : validate_path_argument fs a.input_path none false false with
    | none => simp [hp] at h
    | some ip =>
      cases ho : optTruthy a.output_path with
      | none =>
        simp [hp, ho] at h
        subst h
        intro t ht
        fin_cases ht <;>
          first
            | exact tokenOK_static (by decide)
            | exact tokenOK_path hp
      | some opr =>
        cases hp2 : validate_path_argument fs opr none false false with
        | none => simp [hp, ho, hp2] at h
        | some op =>
          simp [hp, ho, hp2] at h
          subst h
          intro t ht
          fin_cases ht <;>
            first
              | exact tokenOK_static (by decide)
              | exact tokenOK_path hp
              | exact tokenOK_path hp2
  | generate_outputs a =>
    simp only [buildCmd, generate_outputs_cmd] at h
    cases hp : validate_path_argument fs a.input_path none false false with
    | none => simp [hp] at h
    | some ip =>
      cases hn : validate_name a.command 100 with
      | none => simp [hp, hn] at h
      | some c =>
        cases ho : optTruthy a.json_path with
        | none =>
          simp [hp, hn, ho] at h
          subst h
          intro t ht
          fin_cases ht <;>
            first
              | exact tokenOK_static (by decide)
              | exact tokenOK_path hp
              | exact tokenOK_name hn
        | some jpr =>
          cases hp2 : validate_path_argument fs jpr none false false with
          | none => simp [hp, hn, ho, hp2] at h
          | some jp =>
            simp [hp, hn, ho, hp2] at h
            subst h
            intro t ht
            fin_cases ht <;>
              first
                | exact tokenOK_static (by decide)
                | exact tokenOK_path hp
                | exact tokenOK_name hn
                | exact tokenOK_path hp2
  | run_command a =>
    simp only [buildCmd, run_command_cmd] at h
    by_cases hc : a.command = ""
    · simp [hc] at h
    · cases ha : optTruthy a.args with
      | none =>
        simp [hc, ha] at h
        subst h
        intro t ht
        fin_cases ht <;>
          first
            | exact tokenOK_static (by decide)
            | exact tokenOK_opaque (Or.inl rfl)
      | some s =>
        simp [hc, ha] at h
        subst h
        intro t ht
        fin_cases ht <;>
          first
            | exact tokenOK_static (by decide)
            | exact tokenOK_opaque (Or.inl rfl)
            | exact tokenOK_opaque (Or.inr ha)
  | run_playbook a =>
    simp only [buildCmd, run_playbook_cmd] at h
    by_cases hc : a.playbook_id = ""
    · simp [hc] at h
    · cases hw : a.wait with
      | false =>
        simp [hc, hw] at h
        subst h
        intro t ht
        fin_cases ht <;>
          first
            | exact tokenOK_static (by decide)
            | exact tokenOK_opaque rfl
      | true =>
        simp [hc, hw] at h
        subst h
        intro t ht
        fin_cases ht <;>
          first
            | exact tokenOK_static (by decide)
            | exact tokenOK_opaque rfl
  | openapi_codegen a =>
    simp only [buildCmd, openapi_codegen_cmd] at h
    cases hp : validate_path_argument fs a.input_path none false false with
    | none => simp [hp] at h
    | some ip =>
      cases ho : optTruthy a.output_path with
      | none =>
        cases hm : optTruthy a.name with
        | none =>
          simp [hp, ho, hm] at h
          subst h
          intro t ht
          fin_cases ht <;>
            first
              | exact tokenOK_static (by decide)
              | exact tokenOK_path hp
        | some nr =>
          cases hn : validate_name nr 100 with
          | none => simp [hp, ho, hm, hn] at h
          | some n2 =>
            simp [hp, ho, hm, hn] at h
            subst h
            intro t ht
            fin_cases ht <;>
              first
                | exact tokenOK_static (by decide)
                | exact tokenOK_path hp
                | exact tokenOK_name hn
      | some opr =>
        cases hp2 : validate_path_argument fs opr none false false with
        | none => simp [hp, ho, hp2] at h
        | some op =>
          cases hm : optTruthy a.name with
          | none =>
            simp [hp, ho, hp2, hm] at h
            subst h
            intro t ht
            fin_cases ht <;>
              first
                | exact tokenOK_static (by decide)
                | exact tokenOK_path hp
                | exact tokenOK_path hp2
          | some nr =>
            cases hn : validate_name nr 100 with
            | none => simp [hp, ho, hp2, hm, hn] at h
            | some n2 =>
              simp [hp, ho, hp2, hm, hn] at h
              subst h
              intro t ht
              fin_cases ht <;>
                first
                  | exact tokenOK_static (by decide)
                  | exact tokenOK_path hp
                  | exact tokenOK_path hp2
                  | exact tokenOK_name hn
  | postman_codegen a =>
    simp only [buildCmd, postman_codegen_cmd] at h
    cases hp : validate_path_argument fs a.input_path none false false with
    | none => simp [hp] at h
    | some ip =>
      cases ho : optTruthy a.output_path with
      | none =>
        cases hm : optTruthy a.name with
        | none =>
          simp [hp, ho, hm] at h
          subst h
          intro t ht
          fin_cases ht <;>
            first
              | exact tokenOK_static (by decide)
              | exact tokenOK_path hp
        | some nr =>
          cases hn : validate_name nr 100 with
          | none => simp [hp, ho, hm, hn] at h
          | some n2 =>
            simp [hp, ho, hm, hn] at h
            subst h
            intro t ht
            fin_cases ht <;>
              first
                | exact tokenOK_static (by decide)
                | exact tokenOK_path hp
                | exact tokenOK_name hn
      | some opr =>
        cases hp2 : validate_path_argument fs opr none false false with
        | none => simp [hp, ho, hp2] at h
        | some op =>
          cases hm : optTruthy a.name with
          | none =>
            simp [hp, ho, hp2, hm] at h
            subst h
            intro t ht
            fin_cases ht <;>
              first
                | exact tokenOK_static (by decide)
                | exact tokenOK_path hp
                | exact tokenOK_path hp2
          | some nr =>
            cases hn : validate_name nr 100 with
            | none => simp [hp, ho, hp2, hm, hn] at h
            | some n2 =>
              simp [hp, ho, hp2, hm, hn] at h
              subst h
              intro t ht
              fin_cases ht <;>
                first
                  | exact tokenOK_static (by decide)
                  | exact tokenOK_path hp
                  | exact tokenOK_path hp2
                  | exact tokenOK_name hn

/-- Closed witness for C1: a release-notes invocation whose vector mixes
static tokens, a validated path, an enumerated version and the opaque text
field, with the invariant instantiated at its version token. -/
theorem argv_tokens_validated_witness :
    buildCmd fsA (ToolCall.update_release_notes
      { input_path := "Packs/MyPack", version := some "minor"
        text := some "free text!" }) =
      Except.ok ["update-release-notes", "-i", "Packs/MyPack", "-v", "minor",
        "--text", "free text!"] ∧
    TokenOK fsA (ToolCall.update_release_notes
      { input_path := "Packs/MyPack", version := some "minor"
        text := some "free text!" }) "minor" := by
  refine ⟨by rfl, ?_⟩
  exact argv_tokens_validated fsA
    (ToolCall.update_release_notes
      { input_path := "Packs/MyPack", version := some "minor"
        text := some "free text!" })
    ["update-release-notes", "-i", "Packs/MyPack", "-v", "minor",
      "--text", "free text!"] (by rfl) "minor" (by decide)

end Mcp
